import Mathlib

set_option maxRecDepth 16384
set_option maxHeartbeats 1000000

/-!
# Verification of the wapo host runtime against its specification

Shallow embedding of the parts of the `kvinwang/wapo` repository that the
checked claims are about:

* `wapo-host/src/runtime/metering.rs` — the per-instance `Meter`
  (atomic `u64` counters plus a stop flag);
* `wapod/src/web_api/prpc_service.rs` — the Admin/Blobs RPC services and
  the `dispatch_prpc` error-to-status mapping;
* `wapod/src/web_api.rs` — the HTTP routes `stop`, `object_post` and the
  `HexBytes` path-parameter parser;
* `wapod-pherry/src/chain_state/chain_client.rs` — `ChainClient::connect`
  and `ChainClient::submit_tx`.

Machine integers are modelled as `Nat` with explicit reduction modulo
`2 ^ 64` exactly where the Rust code performs a wrapping operation
(`AtomicU64::fetch_add` wraps on overflow).
-/

/-! ## Meter (`wapo-host/src/runtime/metering.rs`) -/

/-- The modulus of Rust `u64` arithmetic, `2 ^ 64`, as a literal. -/
def U64_MOD : Nat := 18446744073709551616

/-- Rust `AtomicU64::fetch_add`: wrapping addition modulo `2 ^ 64`. -/
def fetchAdd (c n : Nat) : Nat := (c + n) % U64_MOD

/-- The `Meter` struct: five `AtomicU64` counters and an `AtomicBool`
stop flag.  Atomics are modelled by plain fields; each method becomes a
state-passing function. -/
structure Meter where
  gas_comsumed : Nat
  net_egress : Nat
  net_ingress : Nat
  storage_read : Nat
  storage_written : Nat
  stopped : Bool
deriving Repr, DecidableEq

/-- Rust `Meter::default()`: `#[derive(Default)]` zero-initialises every
counter and the stop flag. -/
def Meter.new : Meter :=
  { gas_comsumed := 0, net_egress := 0, net_ingress := 0
    storage_read := 0, storage_written := 0, stopped := false }

/-- Rust `Meter::set_gas_comsumed`: `self.gas_comsumed.store(gas, Relaxed)`. -/
def Meter.set_gas_comsumed (m : Meter) (gas : Nat) : Meter :=
  { m with gas_comsumed := gas }

/-- Rust `Meter::record_gas`: `self.gas_comsumed.fetch_add(gas, Relaxed)`. -/
def Meter.record_gas (m : Meter) (gas : Nat) : Meter :=
  { m with gas_comsumed := fetchAdd m.gas_comsumed gas }

/-- Rust `Meter::record_net_egress`: `self.net_egress.fetch_add(bytes, Relaxed)`. -/
def Meter.record_net_egress (m : Meter) (bytes : Nat) : Meter :=
  { m with net_egress := fetchAdd m.net_egress bytes }

/-- Rust `Meter::record_net_ingress`: `self.net_ingress.fetch_add(bytes, Relaxed)`. -/
def Meter.record_net_ingress (m : Meter) (bytes : Nat) : Meter :=
  { m with net_ingress := fetchAdd m.net_ingress bytes }

/-- Rust `Meter::record_storage_read`: `self.storage_read.fetch_add(bytes, Relaxed)`. -/
def Meter.record_storage_read (m : Meter) (bytes : Nat) : Meter :=
  { m with storage_read := fetchAdd m.storage_read bytes }

/-- Rust `Meter::record_storage_written`: `self.storage_written.fetch_add(bytes, Relaxed)`. -/
def Meter.record_storage_written (m : Meter) (bytes : Nat) : Meter :=
  { m with storage_written := fetchAdd m.storage_written bytes }

/-- Rust `Meter::record_tcp_connect_start`: `self.record_net_egress(512)`. -/
def Meter.record_tcp_connect_start (m : Meter) : Meter :=
  m.record_net_egress 512

/-- Rust `Meter::record_tls_connect_start`: `self.record_net_egress(4096)`. -/
def Meter.record_tls_connect_start (m : Meter) : Meter :=
  m.record_net_egress 4096

/-- Rust `Meter::record_tcp_connect_done`: `self.record_net_ingress(512)`. -/
def Meter.record_tcp_connect_done (m : Meter) : Meter :=
  m.record_net_ingress 512

/-- Rust `Meter::record_tls_connect_done`: `self.record_net_ingress(4096)`. -/
def Meter.record_tls_connect_done (m : Meter) : Meter :=
  m.record_net_ingress 4096

/-- Rust `Meter::record_tcp_shutdown`: `self.record_net_egress(128)`. -/
def Meter.record_tcp_shutdown (m : Meter) : Meter :=
  m.record_net_egress 128

/-- Rust `Meter::stop`: `self.stopped.store(true, Relaxed)`. -/
def Meter.stop (m : Meter) : Meter :=
  { m with stopped := true }

/-- One `Meter` method call, as data, so that sequences of operations can
be quantified over.  Arguments are the Rust `u64` parameters. -/
inductive MeterOp where
  | set_gas_comsumed (gas : Nat)
  | record_gas (gas : Nat)
  | record_net_egress (bytes : Nat)
  | record_net_ingress (bytes : Nat)
  | record_storage_read (bytes : Nat)
  | record_storage_written (bytes : Nat)
  | record_tcp_connect_start
  | record_tls_connect_start
  | record_tcp_connect_done
  | record_tls_connect_done
  | record_tcp_shutdown
  | stop
deriving Repr, DecidableEq

/-- Apply one `Meter` method to a meter state. -/
def MeterOp.apply (op : MeterOp) (m : Meter) : Meter :=
  match op with
  | .set_gas_comsumed gas => m.set_gas_comsumed gas
  | .record_gas gas => m.record_gas gas
  | .record_net_egress bytes => m.record_net_egress bytes
  | .record_net_ingress bytes => m.record_net_ingress bytes
  | .record_storage_read bytes => m.record_storage_read bytes
  | .record_storage_written bytes => m.record_storage_written bytes
  | .record_tcp_connect_start => m.record_tcp_connect_start
  | .record_tls_connect_start => m.record_tls_connect_start
  | .record_tcp_connect_done => m.record_tcp_connect_done
  | .record_tls_connect_done => m.record_tls_connect_done
  | .record_tcp_shutdown => m.record_tcp_shutdown
  | .stop => m.stop

/-- Apply a sequence of `Meter` methods, left to right. -/
def runMeterOps (ops : List MeterOp) (m : Meter) : Meter :=
  ops.foldl (fun s op => op.apply s) m

/-- Whether `op` is the `set_gas_comsumed` store (the only non-`fetch_add`
counter write). -/
def MeterOp.isSetGas (op : MeterOp) : Bool :=
  match op with
  | .set_gas_comsumed _ => true
  | _ => false

/-- All five counters of `a` are at most those of `b`. -/
def Meter.countersLE (a b : Meter) : Prop :=
  a.gas_comsumed ≤ b.gas_comsumed ∧
  a.net_egress ≤ b.net_egress ∧
  a.net_ingress ≤ b.net_ingress ∧
  a.storage_read ≤ b.storage_read ∧
  a.storage_written ≤ b.storage_written

/-- The `fetch_add` performed by `op` on `m` does not overflow `u64`
(trivially true for operations that do not add to a counter). -/
def MeterOp.noWrap (op : MeterOp) (m : Meter) : Prop :=
  match op with
  | .set_gas_comsumed _ => True
  | .record_gas gas => m.gas_comsumed + gas < U64_MOD
  | .record_net_egress bytes => m.net_egress + bytes < U64_MOD
  | .record_net_ingress bytes => m.net_ingress + bytes < U64_MOD
  | .record_storage_read bytes => m.storage_read + bytes < U64_MOD
  | .record_storage_written bytes => m.storage_written + bytes < U64_MOD
  | .record_tcp_connect_start => m.net_egress + 512 < U64_MOD
  | .record_tls_connect_start => m.net_egress + 4096 < U64_MOD
  | .record_tcp_connect_done => m.net_ingress + 512 < U64_MOD
  | .record_tls_connect_done => m.net_ingress + 4096 < U64_MOD
  | .record_tcp_shutdown => m.net_egress + 128 < U64_MOD
  | .stop => True

lemma fetchAdd_eq_of_lt {c n : Nat} (h : c + n < U64_MOD) :
    fetchAdd c n = c + n := by
  unfold fetchAdd
  exact Nat.mod_eq_of_lt h

lemma fetchAdd_le {c n : Nat} (h : c + n < U64_MOD) : c ≤ fetchAdd c n := by
  rw [fetchAdd_eq_of_lt h]
  exact Nat.le_add_right c n

lemma fetchAdd_wrap {c n : Nat} (hc : c < U64_MOD) (hn : n < U64_MOD) :
    fetchAdd c n = if c + n < U64_MOD then c + n else c + n - U64_MOD := by
  unfold fetchAdd
  split
  · exact Nat.mod_eq_of_lt (by assumption)
  · rw [Nat.mod_eq_sub_mod (by omega)]
    exact Nat.mod_eq_of_lt (by omega)

/-- C1 counterexample: the Meter operation `set_gas_comsumed` is an
unconditional store, so the sequence `record_gas 5; set_gas_comsumed 0`
drops `gas_comsumed` from 5 back to 0 — a Meter operation does make a
counter smaller than it was before the call. -/
theorem meter_set_gas_decreases :
    (runMeterOps [.record_gas 5] Meter.new).gas_comsumed = 5 ∧
    (runMeterOps [.record_gas 5, .set_gas_comsumed 0] Meter.new).gas_comsumed = 0 ∧
    (0 : Nat) < 5 := by
  refine ⟨?_, ?_, by decide⟩ <;> decide

/-- C1 (amended): every Meter operation other than the `set_gas_comsumed`
store leaves all five counters non-decreasing, provided the `fetch_add`
it performs does not overflow `u64` (Rust `fetch_add` wraps on overflow). -/
theorem meter_ops_monotonic (m : Meter) (op : MeterOp)
    (hset : op.isSetGas = false) (hnw : op.noWrap m) :
    m.countersLE (op.apply m) := by
  cases op with
  | set_gas_comsumed gas => simp [MeterOp.isSetGas] at hset
  | record_gas gas =>
      exact ⟨fetchAdd_le hnw, le_refl _, le_refl _, le_refl _, le_refl _⟩
  | record_net_egress bytes =>
      exact ⟨le_refl _, fetchAdd_le hnw, le_refl _, le_refl _, le_refl _⟩
  | record_net_ingress bytes =>
      exact ⟨le_refl _, le_refl _, fetchAdd_le hnw, le_refl _, le_refl _⟩
  | record_storage_read bytes =>
      exact ⟨le_refl _, le_refl _, le_refl _, fetchAdd_le hnw, le_refl _⟩
  | record_storage_written bytes =>
      exact ⟨le_refl _, le_refl _, le_refl _, le_refl _, fetchAdd_le hnw⟩
  | record_tcp_connect_start =>
      exact ⟨le_refl _, fetchAdd_le hnw, le_refl _, le_refl _, le_refl _⟩
  | record_tls_connect_start =>
      exact ⟨le_refl _, fetchAdd_le hnw, le_refl _, le_refl _, le_refl _⟩
  | record_tcp_connect_done =>
      exact ⟨le_refl _, le_refl _, fetchAdd_le hnw, le_refl _, le_refl _⟩
  | record_tls_connect_done =>
      exact ⟨le_refl _, le_refl _, fetchAdd_le hnw, le_refl _, le_refl _⟩
  | record_tcp_shutdown =>
      exact ⟨le_refl _, fetchAdd_le hnw, le_refl _, le_refl _, le_refl _⟩
  | stop =>
      exact ⟨le_refl _, le_refl _, le_refl _, le_refl _, le_refl _⟩

theorem meter_ops_monotonic_witness :
    Meter.new.countersLE ((MeterOp.record_gas 5).apply Meter.new) :=
  meter_ops_monotonic Meter.new (.record_gas 5) rfl
    (show Meter.new.gas_comsumed + 5 < U64_MOD by decide)

/-- C2 counterexample: the method `record_gas` applied to a counter holding
`u64::MAX` with argument 1 yields 0 (wrap-around), not `u64::MAX` as the
claimed saturation behaviour would require. -/
theorem meter_record_gas_wraps_at_max :
    (({ Meter.new with gas_comsumed := U64_MOD - 1 }).record_gas 1).gas_comsumed = 0 ∧
    (0 : Nat) ≠ U64_MOD - 1 := by
  constructor
  · show fetchAdd (U64_MOD - 1) 1 = 0
    norm_num [fetchAdd, U64_MOD]
  · norm_num [U64_MOD]

/-- C2 (amended): counters are 64-bit and wrap modulo `2 ^ 64` on
overflow: every record operation applied to a counter holding `c` with
argument `n` yields `c + n` when that fits in a `u64`, and
`c + n - 2 ^ 64` (not `u64::MAX`) when it overflows. -/
theorem meter_record_wraps (m : Meter) (n : Nat)
    (hg : m.gas_comsumed < U64_MOD) (he : m.net_egress < U64_MOD)
    (hi : m.net_ingress < U64_MOD) (hr : m.storage_read < U64_MOD)
    (hw : m.storage_written < U64_MOD) (hn : n < U64_MOD) :
    ((m.record_gas n).gas_comsumed =
      if m.gas_comsumed + n < U64_MOD then m.gas_comsumed + n
      else m.gas_comsumed + n - U64_MOD) ∧
    ((m.record_net_egress n).net_egress =
      if m.net_egress + n < U64_MOD then m.net_egress + n
      else m.net_egress + n - U64_MOD) ∧
    ((m.record_net_ingress n).net_ingress =
      if m.net_ingress + n < U64_MOD then m.net_ingress + n
      else m.net_ingress + n - U64_MOD) ∧
    ((m.record_storage_read n).storage_read =
      if m.storage_read + n < U64_MOD then m.storage_read + n
      else m.storage_read + n - U64_MOD) ∧
    ((m.record_storage_written n).storage_written =
      if m.storage_written + n < U64_MOD then m.storage_written + n
      else m.storage_written + n - U64_MOD) :=
  ⟨fetchAdd_wrap hg hn, fetchAdd_wrap he hn, fetchAdd_wrap hi hn,
   fetchAdd_wrap hr hn, fetchAdd_wrap hw hn⟩

theorem meter_record_wraps_witness :
    ((Meter.new.record_gas 3).gas_comsumed =
      if Meter.new.gas_comsumed + 3 < U64_MOD then Meter.new.gas_comsumed + 3
      else Meter.new.gas_comsumed + 3 - U64_MOD) ∧
    ((Meter.new.record_net_egress 3).net_egress =
      if Meter.new.net_egress + 3 < U64_MOD then Meter.new.net_egress + 3
      else Meter.new.net_egress + 3 - U64_MOD) ∧
    ((Meter.new.record_net_ingress 3).net_ingress =
      if Meter.new.net_ingress + 3 < U64_MOD then Meter.new.net_ingress + 3
      else Meter.new.net_ingress + 3 - U64_MOD) ∧
    ((Meter.new.record_storage_read 3).storage_read =
      if Meter.new.storage_read + 3 < U64_MOD then Meter.new.storage_read + 3
      else Meter.new.storage_read + 3 - U64_MOD) ∧
    ((Meter.new.record_storage_written 3).storage_written =
      if Meter.new.storage_written + 3 < U64_MOD then Meter.new.storage_written + 3
      else Meter.new.storage_written + 3 - U64_MOD) :=
  meter_record_wraps Meter.new 3 (by decide) (by decide) (by decide)
    (by decide) (by decide) (by decide)

/-- C9: the connection-lifecycle helpers charge fixed amounts:
`record_tcp_connect_start` adds 512 to `net_egress`,
`record_tls_connect_start` adds 4096 to `net_egress`,
`record_tcp_connect_done` adds 512 to `net_ingress`,
`record_tls_connect_done` adds 4096 to `net_ingress`, and
`record_tcp_shutdown` adds 128 to `net_egress` (u64 wrapping addition);
all other fields of the Meter are unchanged. -/
theorem meter_connect_helpers_fixed_charges (m : Meter) :
    m.record_tcp_connect_start =
      { m with net_egress := (m.net_egress + 512) % U64_MOD } ∧
    m.record_tls_connect_start =
      { m with net_egress := (m.net_egress + 4096) % U64_MOD } ∧
    m.record_tcp_connect_done =
      { m with net_ingress := (m.net_ingress + 512) % U64_MOD } ∧
    m.record_tls_connect_done =
      { m with net_ingress := (m.net_ingress + 4096) % U64_MOD } ∧
    m.record_tcp_shutdown =
      { m with net_egress := (m.net_egress + 128) % U64_MOD } :=
  ⟨rfl, rfl, rfl, rfl, rfl⟩

lemma meterOp_preserves_stopped (op : MeterOp) (m : Meter)
    (h : m.stopped = true) : (op.apply m).stopped = true := by
  cases op <;> first | exact h | rfl

/-- C10: a default-constructed Meter has all five counters zero and the
stop flag false; `stop()` sets the flag; and the flag is monotone: no
sequence of Meter operations ever resets it from true to false. -/
theorem meter_stop_flag_behaviour :
    (Meter.new.gas_comsumed = 0 ∧ Meter.new.net_egress = 0 ∧
     Meter.new.net_ingress = 0 ∧ Meter.new.storage_read = 0 ∧
     Meter.new.storage_written = 0 ∧ Meter.new.stopped = false) ∧
    (∀ m : Meter, m.stop.stopped = true) ∧
    (∀ (m : Meter) (ops : List MeterOp), m.stopped = true →
      (runMeterOps ops m).stopped = true) := by
  refine ⟨⟨rfl, rfl, rfl, rfl, rfl, rfl⟩, fun m => rfl, ?_⟩
  intro m ops h
  induction ops generalizing m with
  | nil => exact h
  | cons op rest ih => exact ih (op.apply m) (meterOp_preserves_stopped op m h)

theorem meter_stop_flag_behaviour_witness :
    (runMeterOps [MeterOp.record_gas 3] Meter.new.stop).stopped = true :=
  meter_stop_flag_behaviour.2.2 Meter.new.stop [MeterOp.record_gas 3] rfl

/-! ## RPC service layer (`wapod/src/web_api/prpc_service.rs`) -/

/-- The server-side RPC error type `rpc::prpc::server::Error`.  The
`match` in `dispatch_prpc` is exhaustive over exactly these three
variants, so the type has no others. -/
inductive RpcError where
  | NotFound
  | DecodeError (msg : String)
  | BadRequest (msg : String)
deriving Repr, DecidableEq

/-- Status code assigned to an error by the `match` inside
`dispatch_prpc`: `NotFound` is 404, `DecodeError` and `BadRequest` are
400. -/
def rpcErrorCode (e : RpcError) : Nat :=
  match e with
  | .NotFound => 404
  | .DecodeError _ => 400
  | .BadRequest _ => 400

/-- Error message assigned by the same `match` (the body is this message
wrapped as a `ProtoError`; the wire encoding is not modelled). -/
def rpcErrorMessage (e : RpcError) : String :=
  match e with
  | .NotFound => "Method Not Found"
  | .DecodeError msg => "DecodeError(" ++ msg ++ ")"
  | .BadRequest msg => "BadRequest(" ++ msg ++ ")"

/-- The function `dispatch_prpc`, given the outcome of
`dispatch_request`: a success is `(200, response bytes)`; an error is
its status code together with the `ProtoError` message. -/
def dispatch_prpc (result : Except RpcError (List Nat)) :
    Nat × (List Nat ⊕ String) :=
  match result with
  | .ok data => (200, .inl data)
  | .error e => (rpcErrorCode e, .inr (rpcErrorMessage e))

/-- C6 counterexample: no outcome of `dispatch_prpc` ever carries status
500 — the error type has no `AppError`/`ContractQueryError` variants, so
the claimed 500 mapping for server-side application errors does not
exist in this dispatcher. -/
theorem dispatch_prpc_never_500 :
    ¬ ∃ e : RpcError, (dispatch_prpc (.error e)).1 = 500 := by
  rintro ⟨e, h⟩
  cases e <;> simp [dispatch_prpc, rpcErrorCode] at h

/-- C6 (amended): a successful dispatch returns 200 with the response
bytes; `NotFound` returns 404; `DecodeError` and `BadRequest` return
400; and no error returns 500 — the server error type has no
`AppError`/`ContractQueryError` variants at all. -/
theorem dispatch_prpc_code_mapping (data : List Nat) (msg : String) :
    dispatch_prpc (.ok data) = (200, .inl data) ∧
    (dispatch_prpc (.error .NotFound)).1 = 404 ∧
    (dispatch_prpc (.error (.DecodeError msg))).1 = 400 ∧
    (dispatch_prpc (.error (.BadRequest msg))).1 = 400 ∧
    (∀ e : RpcError, (dispatch_prpc (.error e)).1 ≠ 500) := by
  refine ⟨rfl, rfl, rfl, rfl, fun e => ?_⟩
  cases e <;> simp [dispatch_prpc, rpcErrorCode]

/-- Outcome of the guard at the top of `AdminRpc::init`: either the
request is rejected by the salt-length check, or control proceeds to
`App::init` (whose body lives outside the service layer). -/
inductive InitStep where
  | proceed
  | rejected (e : RpcError)
deriving Repr, DecidableEq

/-- The salt-length guard of `AdminRpc::init`: a request whose salt is
longer than 64 bytes returns the error `BadRequest` with the message
Salt too long, before anything else runs. -/
def adminInitSaltCheck (salt : List Nat) : InitStep :=
  if salt.length > 64 then .rejected (.BadRequest "Salt too long")
  else .proceed

/-- C5: a salt of length at most 64 bytes (including exactly 64) passes
the salt check of `AdminRpc::init` and proceeds; a salt of 65 bytes or
more is rejected with `BadRequest("Salt too long")`. -/
theorem admin_init_salt_boundary (salt : List Nat) :
    (salt.length ≤ 64 → adminInitSaltCheck salt = .proceed) ∧
    (65 ≤ salt.length →
      adminInitSaltCheck salt = .rejected (.BadRequest "Salt too long")) := by
  constructor
  · intro h
    unfold adminInitSaltCheck
    rw [if_neg (by omega)]
  · intro h
    unfold adminInitSaltCheck
    rw [if_pos (by omega)]

theorem admin_init_salt_boundary_witness :
    adminInitSaltCheck (List.replicate 64 0) = .proceed ∧
    adminInitSaltCheck (List.replicate 65 0) =
      .rejected (.BadRequest "Salt too long") :=
  ⟨(admin_init_salt_boundary (List.replicate 64 0)).1 (by simp),
   (admin_init_salt_boundary (List.replicate 65 0)).2 (by simp)⟩

/-- Modelled from the spec: the blob store `put` itself
(`BlobLoader::put` / `wapo_host::objects::put_object`) is not among the
sources — per the spec it streams bytes to a temp file, hashes on the
fly and rejects on mismatch.  Its outcome is abstracted as
`Except String Unit`, the error carrying the displayed failure. -/
def BlobPutOutcome : Type := Except String Unit

/-- Method `BlobsRpc::put`: any loader failure is mapped to
`RpcError::BadRequest`, its message prefixed with Failed to put object. -/
def blobs_rpc_put (loaderResult : BlobPutOutcome) : Except RpcError Unit :=
  match loaderResult with
  | .ok () => .ok ()
  | .error err => .error (.BadRequest ("Failed to put object: " ++ err))

/-- Route `object_post` (`POST /object/<hash>?type=<alg>`): a failing
`put_object` is returned as `Custom(Status::InternalServerError, err)`,
i.e. HTTP 500 with the error text. -/
def object_post (putResult : BlobPutOutcome) : Except (Nat × String) Unit :=
  match putResult with
  | .ok () => .ok ()
  | .error err => .error (500, err)

/-- C4 counterexample: a failing blob put (e.g. a hash mismatch) at the
HTTP endpoint `POST /object/<hash>` yields status 500
(`InternalServerError`), not a BadRequest-class 400; only the RPC
`Blobs.Put` path maps the failure to `BadRequest`. -/
theorem object_post_fails_with_500 :
    object_post (.error "hash mismatch") = .error (500, "hash mismatch") ∧
    blobs_rpc_put (.error "hash mismatch") =
      .error (.BadRequest "Failed to put object: hash mismatch") ∧
    (500 : Nat) ≠ 400 :=
  ⟨rfl, rfl, by decide⟩

/-- C4 (amended): on a failing blob put, the RPC method `Blobs.Put`
returns `BadRequest` (dispatched as HTTP 400), while the HTTP endpoint
`POST /object/<hash>` returns `InternalServerError` (HTTP 500) with the
error text. -/
theorem blob_put_error_mapping (err : String) :
    blobs_rpc_put (.error err) =
      .error (.BadRequest ("Failed to put object: " ++ err)) ∧
    rpcErrorCode (.BadRequest ("Failed to put object: " ++ err)) = 400 ∧
    object_post (.error err) = .error (500, err) :=
  ⟨rfl, rfl, rfl⟩

/-! ## Instance stop route (`wapod/src/web_api.rs`, `stop`) -/

/-- Instance address bytes: `[u8; 32]` after the `try_into` check of the
route, carried as a byte list so the length check is explicit. -/
abbrev Address : Type := List Nat

/-- An entry of the address table: command sender plus join handle.  The
contents are irrelevant to the routes modelled here, only identity and
presence matter. -/
structure InstanceHandle where
  id : Nat
deriving Repr, DecidableEq

/-- The process-wide address table, `Address -> live instance handle`. -/
abbrev AddressTable : Type := Address → Option InstanceHandle

/-- Modelled from the spec: `App::take_handle` lives in
`wapod/src/web_api/app.rs`, which is not among the sources; the spec
(§4.7, §4.8) defines `take` as remove-and-return on the address table.
Returns the entry at `a` (if any) together with the table without it. -/
def takeHandle (table : AddressTable) (a : Address) :
    Option InstanceHandle × AddressTable :=
  (table a, fun b => if b = a then none else table b)

/-- Outcome of the `stop` route, a unit-or-custom-status result: a unit
success responds 204, the error variants carry the HTTP status and
message they are built with. -/
inductive StopOutcome where
  | success
  | badRequest (msg : String)
  | notFound (msg : String)
deriving Repr, DecidableEq

/-- Route `stop` (`POST /stop/<addr>`): reject a non-32-byte address
with `BadRequest("Invalid address")`; `take_handle` the address, and if
no handle is present answer `NotFound("Instance not found")`; otherwise
send `Command::Stop`, await the instance exit, and answer success.
The returned table is the table after the route ran. -/
def stopRoute (table : AddressTable) (a : Address) :
    StopOutcome × AddressTable :=
  if (a : List Nat).length ≠ 32 then (.badRequest "Invalid address", table)
  else
    match takeHandle table a with
    | (none, t) => (.notFound "Instance not found", t)
    | (some _, t) => (.success, t)

/-- C3 counterexample: with one live instance at the all-zero address,
the first `POST /stop/<addr>` succeeds, but the second returns
`NotFound("Instance not found")` (HTTP 404), not success — `stop` is not
idempotent at the HTTP surface because `take_handle` removed the entry. -/
theorem stop_route_not_idempotent :
    (stopRoute
      (fun b => if b = (List.replicate 32 0 : Address) then some ⟨1⟩ else none)
      (List.replicate 32 0 : Address)).1 = .success ∧
    (stopRoute
      (stopRoute
        (fun b => if b = (List.replicate 32 0 : Address) then some ⟨1⟩ else none)
        (List.replicate 32 0 : Address)).2
      (List.replicate 32 0 : Address)).1 = .notFound "Instance not found" := by
  constructor <;> decide

/-- C3 (amended): a successful `POST /stop/<addr>` removes the handle
from the address table, so a second `POST /stop/<addr>` for the same
address returns `NotFound("Instance not found")` (HTTP 404) rather than
success. -/
theorem stop_route_second_call_404 (table : AddressTable) (a : Address)
    (h32 : (a : List Nat).length = 32) (h : InstanceHandle)
    (hlive : table a = some h) :
    (stopRoute table a).1 = .success ∧
    (stopRoute table a).2 a = none ∧
    (stopRoute (stopRoute table a).2 a).1 = .notFound "Instance not found" := by
  unfold stopRoute takeHandle
  simp [h32, hlive]

theorem stop_route_second_call_404_witness :
    (stopRoute
      (fun b => if b = (List.replicate 32 5 : Address) then some ⟨7⟩ else none)
      (List.replicate 32 5 : Address)).1 = .success ∧
    (stopRoute
      (fun b => if b = (List.replicate 32 5 : Address) then some ⟨7⟩ else none)
      (List.replicate 32 5 : Address)).2 (List.replicate 32 5 : Address) = none ∧
    (stopRoute
      (stopRoute
        (fun b => if b = (List.replicate 32 5 : Address) then some ⟨7⟩ else none)
        (List.replicate 32 5 : Address)).2
      (List.replicate 32 5 : Address)).1 = .notFound "Instance not found" :=
  stop_route_second_call_404
    (fun b => if b = (List.replicate 32 5 : Address) then some ⟨7⟩ else none)
    (List.replicate 32 5 : Address) (by decide) ⟨7⟩ (by decide)

/-! ## Hex address parameters (`HexBytes::from_param` in
`wapod/src/web_api.rs`)

Strings are carried as lists of byte codes (48 is the code of the digit
zero, 120 of the letter x, 97 of the letter a), matching the
byte-oriented behaviour of the `hex` crate. -/

/-- One lowercase hex digit as `hex::encode` emits it: values 0 to 9
become codes 48 to 57, values 10 to 15 become codes 97 to 102. -/
def hexDigitCode (n : Nat) : Nat :=
  if n < 10 then 48 + n else 87 + n

/-- Function `hex::encode`: two lowercase hex digits per byte, high
nibble first. -/
def hexEncode (bs : List Nat) : List Nat :=
  (bs.map (fun b => [hexDigitCode (b / 16), hexDigitCode (b % 16)])).join

/-- Value of one hex digit as `hex::decode` accepts it: digits,
lowercase `a`..`f`, or uppercase `A`..`F`; anything else is invalid. -/
def hexDigitVal (c : Nat) : Option Nat :=
  if 48 ≤ c ∧ c ≤ 57 then some (c - 48)
  else if 97 ≤ c ∧ c ≤ 102 then some (c - 87)
  else if 65 ≤ c ∧ c ≤ 70 then some (c - 55)
  else none

/-- Function `hex::decode`: consume two digits per byte; fail on odd
length or on a non-hex character. -/
def hexDecode : List Nat → Option (List Nat)
  | [] => some []
  | [_] => none
  | c1 :: c2 :: rest =>
    match hexDigitVal c1, hexDigitVal c2, hexDecode rest with
    | some hi, some lo, some bs => some ((16 * hi + lo) :: bs)
    | _, _, _ => none

/-- Method `str::trim_start_matches("0x")`: repeatedly strip a leading
`"0x"` (byte codes `48, 120`). -/
def trimStart0x : List Nat → List Nat
  | 48 :: 120 :: rest => trimStart0x rest
  | s => s

/-- Method `HexBytes::from_param`: strip `"0x"` prefixes, then
hex-decode; a decoding failure maps to the error
`"Invalid hex string"`. -/
def HexBytes.from_param (param : List Nat) : Except String (List Nat) :=
  match hexDecode (trimStart0x param) with
  | some bytes => .ok bytes
  | none => .error "Invalid hex string"

lemma hexDigitVal_hexDigitCode {n : Nat} (h : n < 16) :
    hexDigitVal (hexDigitCode n) = some n := by
  interval_cases n <;> decide

lemma hexDigitCode_ne_120 {n : Nat} (h : n < 16) : hexDigitCode n ≠ 120 := by
  interval_cases n <;> decide

lemma hexEncode_cons (b : Nat) (rest : List Nat) :
    hexEncode (b :: rest) =
      hexDigitCode (b / 16) :: hexDigitCode (b % 16) :: hexEncode rest := by
  unfold hexEncode
  simp

lemma hexDecode_hexEncode {bs : List Nat} (h : ∀ b ∈ bs, b < 256) :
    hexDecode (hexEncode bs) = some bs := by
  induction bs with
  | nil => rfl
  | cons b rest ih =>
      have hb : b < 256 := h b (List.mem_cons_self b rest)
      have hrest : hexDecode (hexEncode rest) = some rest :=
        ih (fun x hx => h x (List.mem_cons_of_mem b hx))
      have h1 : b / 16 < 16 := by omega
      have h2 : b % 16 < 16 := Nat.mod_lt _ (by norm_num)
      rw [hexEncode_cons]
      show (match hexDigitVal (hexDigitCode (b / 16)),
              hexDigitVal (hexDigitCode (b % 16)),
              hexDecode (hexEncode rest) with
            | some hi, some lo, some l => some ((16 * hi + lo) :: l)
            | _, _, _ => none) = some (b :: rest)
      rw [hexDigitVal_hexDigitCode h1, hexDigitVal_hexDigitCode h2, hrest]
      show some ((16 * (b / 16) + b % 16) :: rest) = some (b :: rest)
      rw [Nat.div_add_mod]

lemma trimStart0x_cons_of_ne {c1 c2 : Nat} (t : List Nat) (h : c2 ≠ 120) :
    trimStart0x (c1 :: c2 :: t) = c1 :: c2 :: t := by
  unfold trimStart0x
  split
  · simp_all
  · rfl

lemma trimStart0x_hexEncode_cons (b : Nat) (rest : List Nat) :
    trimStart0x (hexEncode (b :: rest)) = hexEncode (b :: rest) := by
  rw [hexEncode_cons]
  exact trimStart0x_cons_of_ne _
    (hexDigitCode_ne_120 (Nat.mod_lt _ (by norm_num)))

/-- C7: for every 32-byte value, `HexBytes::from_param` accepts both the
plain lowercase hex encoding and the same encoding prefixed with
`"0x"`, and both parses return exactly the original 32 bytes. -/
theorem hex_address_parses_with_and_without_0x (bs : List Nat)
    (hlen : bs.length = 32) (hbytes : ∀ b ∈ bs, b < 256) :
    HexBytes.from_param (hexEncode bs) = .ok bs ∧
    HexBytes.from_param (48 :: 120 :: hexEncode bs) = .ok bs := by
  obtain ⟨b, rest, rfl⟩ : ∃ b rest, bs = b :: rest := by
    cases bs with
    | nil => simp at hlen
    | cons b rest => exact ⟨b, rest, rfl⟩
  have hdec : hexDecode (hexEncode (b :: rest)) = some (b :: rest) :=
    hexDecode_hexEncode hbytes
  constructor
  · unfold HexBytes.from_param
    rw [trimStart0x_hexEncode_cons, hdec]
  · unfold HexBytes.from_param
    have hstep : trimStart0x (48 :: 120 :: hexEncode (b :: rest)) =
        trimStart0x (hexEncode (b :: rest)) := by
      rw [trimStart0x]
    rw [hstep, trimStart0x_hexEncode_cons, hdec]

theorem hex_address_parses_witness :
    HexBytes.from_param (hexEncode (List.replicate 32 0)) =
      .ok (List.replicate 32 0) ∧
    HexBytes.from_param (48 :: 120 :: hexEncode (List.replicate 32 0)) =
      .ok (List.replicate 32 0) :=
  hex_address_parses_with_and_without_0x (List.replicate 32 0) (by simp)
    (by intro b hb; rw [List.mem_replicate] at hb; omega)

/-! ## Chain client (`wapod-pherry/src/chain_state/chain_client.rs`) -/

/-- The await structure of a chain-side operation: a named remote RPC
call, a `tokio::time::timeout` wrapper with its limit, or `?`-chained
sequencing of two awaits. -/
inductive ChainCall where
  | call (name : String)
  | withTimeout (limit : Nat) (body : ChainCall)
  | andThen (first second : ChainCall)
deriving Repr, DecidableEq

/-- Method `ChainClient::connect`:
`timeout(NET_TIMEOUT, phaxt::connect(url))`.  The constant
`NET_TIMEOUT` is configured in the surrounding `chain_state` module and
enters here as a parameter. -/
def ChainClient.connect_calls (netTimeout : Nat) : ChainCall :=
  .withTimeout netTimeout (.call "phaxt_connect")

/-- Method `ChainClient::submit_tx`: `create_signed`, then
`submit_and_watch`, then — only if `wait_finalized` —
`wait_for_finalized_success`; none of the three awaits is wrapped in a
timeout. -/
def ChainClient.submit_tx_calls (wait_finalized : Bool) : ChainCall :=
  if wait_finalized then
    .andThen (.andThen (.call "create_signed") (.call "submit_and_watch"))
      (.call "wait_for_finalized_success")
  else
    .andThen (.call "create_signed") (.call "submit_and_watch")

/-- Result of running a chain operation when the remote call named `n`
takes `env n` time units: completion after `elapsed` units, or a timeout
error surfacing after `elapsed` units. -/
inductive ChainRunResult where
  | ok (elapsed : Nat)
  | timedOut (elapsed : Nat)
deriving Repr, DecidableEq

/-- Timed semantics of `ChainCall`: a bare call always completes after
its duration; `withTimeout` cuts its body off at the limit
(`tokio::time::timeout` returns `Elapsed` then); `andThen` runs the
second await only when the first succeeded (`?` propagates the error). -/
def runChainCall (env : String → Nat) : ChainCall → ChainRunResult
  | .call name => .ok (env name)
  | .withTimeout limit body =>
    match runChainCall env body with
    | .ok t => if t > limit then .timedOut limit else .ok t
    | .timedOut t => if t > limit then .timedOut limit else .timedOut t
  | .andThen a b =>
    match runChainCall env a with
    | .ok t =>
      match runChainCall env b with
      | .ok u => .ok (t + u)
      | .timedOut u => .timedOut (t + u)
    | .timedOut t => .timedOut t

/-- Whether every remote call in the operation is dominated by a
`timeout` wrapper. -/
def underTimeout : ChainCall → Bool
  | .call _ => false
  | .withTimeout _ _ => true
  | .andThen a b => underTimeout a && underTimeout b

/-- C8 counterexample: `submit_tx` contains awaits not under any
timeout, and concretely, when every remote call takes 1000 time units,
`submit_tx` (with `wait_finalized = true`) runs to completion after 3000
units and never returns a timeout error — it is not executed under the
`NET_TIMEOUT` deadline. -/
theorem submit_tx_not_under_timeout :
    underTimeout (ChainClient.submit_tx_calls true) = false ∧
    runChainCall (fun _ => 1000) (ChainClient.submit_tx_calls true) =
      .ok 3000 :=
  ⟨rfl, rfl⟩

/-- C8 (amended): `ChainClient::connect` runs its chain RPC under the
`NET_TIMEOUT` deadline — whenever the underlying connect takes longer
than the deadline it returns a timeout error after exactly the deadline
— but `ChainClient::submit_tx` performs its chain calls with no timeout
wrapper at all (for either value of `wait_finalized`). -/
theorem connect_under_net_timeout (netTimeout : Nat) (env : String → Nat)
    (hslow : env "phaxt_connect" > netTimeout) :
    underTimeout (ChainClient.connect_calls netTimeout) = true ∧
    runChainCall env (ChainClient.connect_calls netTimeout) =
      .timedOut netTimeout ∧
    (∀ w : Bool, underTimeout (ChainClient.submit_tx_calls w) = false) := by
  refine ⟨rfl, ?_, fun w => by cases w <;> rfl⟩
  show (match runChainCall env (.call "phaxt_connect") with
        | .ok t => if t > netTimeout then .timedOut netTimeout else .ok t
        | .timedOut t =>
          if t > netTimeout then .timedOut netTimeout
          else .timedOut t) = ChainRunResult.timedOut netTimeout
  show (if env "phaxt_connect" > netTimeout then
          ChainRunResult.timedOut netTimeout
        else .ok (env "phaxt_connect")) = ChainRunResult.timedOut netTimeout
  rw [if_pos hslow]

theorem connect_under_net_timeout_witness :
    underTimeout (ChainClient.connect_calls 1) = true ∧
    runChainCall (fun _ => 2) (ChainClient.connect_calls 1) = .timedOut 1 ∧
    (∀ w : Bool, underTimeout (ChainClient.submit_tx_calls w) = false) :=
  connect_under_net_timeout 1 (fun _ => 2) (by norm_num)
